import Mathlib

/-!
Verification development for the MCP python-sdk OAuth server core
(`src/mcp/server/auth/provider.py` and `src/mcp/server/auth/routes.py`).

The Python code is shallowly embedded: strings are Lean `String`s manipulated
through their underlying `List Char`, dictionaries keyed by strings become
association lists that preserve insertion order, fallible code returns
`Except String`, and the `urllib.parse` / pydantic helpers the code calls are
modelled faithfully below.
-/

/-! ## Character-list string helpers (models of Python `str` operations) -/

/-- Model of Python `str.split(sep)` for a one-character separator: splits at
every occurrence of `sep`, keeping empty pieces, and yields `[[]]` on the
empty string (Python: `"".split("&") == [""]`). -/
def listSplit (sep : Char) : List Char → List (List Char)
  | [] => [[]]
  | c :: rest =>
    let r := listSplit sep rest
    if c == sep then [] :: r
    else
      match r with
      | h :: t => (c :: h) :: t
      | [] => [[c]]

/-- Model of Python `str.split(sep, 1)`: split at the first occurrence of
`sep` only; `none` when `sep` does not occur. -/
def splitFirst (sep : Char) : List Char → Option (List Char × List Char)
  | [] => none
  | c :: rest =>
    if c == sep then some ([], rest)
    else (splitFirst sep rest).map fun p => (c :: p.1, p.2)

/-- Model of Python `str.rstrip("/")`-style stripping of one character from
the right end of a string. -/
def rstripChar (ch : Char) (s : String) : String :=
  ⟨List.rdropWhile (· == ch) s.data⟩

/-- Model of Python `str.lstrip("/")`-style stripping of one character from
the left end of a string. -/
def lstripChar (ch : Char) (s : String) : String :=
  ⟨s.data.dropWhile (· == ch)⟩

/-- Model of Python truthiness `s or default` for strings: the empty string is
falsy. -/
def pyOrStr (s dflt : String) : String :=
  if s = "" then dflt else s

/-- Model of Python `x or default` for an optional string (`None` and `""` are
both falsy). -/
def pyOrOptStr (s : Option String) (dflt : String) : String :=
  match s with
  | none => dflt
  | some s => pyOrStr s dflt

/-- Model of Python truthiness of an optional string: `None` and `""` are
falsy, everything else truthy. -/
def pyTruthy : Option String → Bool
  | none => false
  | some s => s != ""

/-! ## Model of `urllib.parse` percent-coding (`quote_plus` / `unquote_plus`)

`urlencode` quotes with `quote_via=quote_plus` and `safe=''`: every UTF-8 byte
of the string is kept only when it is an ASCII alphanumeric or one of
`_.-~`; a space becomes `+`; every other byte becomes `%XX` with uppercase
hex digits. `unquote_plus` maps `+` back to space and decodes maximal runs of
`%XX` escapes as UTF-8 (`errors="replace"`). -/

/-- UTF-8 encoding of a single Unicode scalar value, as a list of byte
values. -/
def utf8Bytes (c : Char) : List Nat :=
  let n := c.toNat
  if n < 0x80 then [n]
  else if n < 0x800 then [0xC0 + n / 64, 0x80 + n % 64]
  else if n < 0x10000 then [0xE0 + n / 4096, 0x80 + (n / 64) % 64, 0x80 + n % 64]
  else [0xF0 + n / 262144, 0x80 + (n / 4096) % 64, 0x80 + (n / 64) % 64, 0x80 + n % 64]

/-- UTF-8 encoding of a string (model of Python `str.encode("utf-8")`). -/
def utf8Encode (s : String) : List Nat :=
  (s.data.map utf8Bytes).flatten

/-- Whether `b` is a UTF-8 continuation byte. -/
def isContByte (b : Nat) : Bool :=
  0x80 ≤ b && b < 0xC0

/-- The Unicode replacement character U+FFFD. -/
def replChar : Char := Char.ofNat 0xFFFD

/-- UTF-8 decoding with replacement of malformed sequences (model of Python
`bytes.decode("utf-8", errors="replace")`; replacement granularity for
malformed sequences is approximated: one replacement character per rejected
lead byte). -/
def utf8Decode : List Nat → List Char
  | [] => []
  | b :: rest =>
    if b < 0x80 then Char.ofNat b :: utf8Decode rest
    else if b < 0xC2 then replChar :: utf8Decode rest
    else if b < 0xE0 then
      match rest with
      | b2 :: rest2 =>
        if isContByte b2 then Char.ofNat ((b - 0xC0) * 64 + (b2 - 0x80)) :: utf8Decode rest2
        else replChar :: utf8Decode (b2 :: rest2)
      | [] => [replChar]
    else if b < 0xF0 then
      match rest with
      | b2 :: b3 :: rest3 =>
        if isContByte b2 && isContByte b3 then
          let n := (b - 0xE0) * 4096 + (b2 - 0x80) * 64 + (b3 - 0x80)
          if 0xD800 ≤ n && n < 0xE000 then replChar :: utf8Decode rest3
          else Char.ofNat n :: utf8Decode rest3
        else replChar :: utf8Decode (b2 :: b3 :: rest3)
      | _ => [replChar]
    else if b < 0xF5 then
      match rest with
      | b2 :: b3 :: b4 :: rest4 =>
        if isContByte b2 && isContByte b3 && isContByte b4 then
          let n := (b - 0xF0) * 262144 + (b2 - 0x80) * 4096 + (b3 - 0x80) * 64 + (b4 - 0x80)
          if n < 0x110000 then Char.ofNat n :: utf8Decode rest4
          else replChar :: utf8Decode rest4
        else replChar :: utf8Decode (b2 :: b3 :: b4 :: rest4)
      | _ => [replChar]
    else replChar :: utf8Decode rest

/-- Value of an ASCII hex digit, if any. -/
def hexDigitVal (c : Char) : Option Nat :=
  if '0' ≤ c ∧ c ≤ '9' then some (c.toNat - 48)
  else if 'a' ≤ c ∧ c ≤ 'f' then some (c.toNat - 87)
  else if 'A' ≤ c ∧ c ≤ 'F' then some (c.toNat - 55)
  else none

/-- One uppercase hex digit. -/
def hexDigitUpper (n : Nat) : Char :=
  if n < 10 then Char.ofNat (48 + n) else Char.ofNat (55 + n)

/-- Tokenize a percent-encoded character list: `%XX` with two hex digits
becomes a byte token, everything else stays a literal character (model of the
scanning done by Python `urllib.parse.unquote`). -/
def pctTokensAux : Nat → List Char → List (Sum Char Nat)
  | 0, _ => []
  | _ + 1, [] => []
  | fuel + 1, '%' :: a :: b :: rest2 =>
    match hexDigitVal a, hexDigitVal b with
    | some ha, some hb => Sum.inr (ha * 16 + hb) :: pctTokensAux fuel rest2
    | _, _ => Sum.inl '%' :: pctTokensAux fuel (a :: b :: rest2)
  | fuel + 1, c :: rest => Sum.inl c :: pctTokensAux fuel rest

def pctTokens (l : List Char) : List (Sum Char Nat) :=
  pctTokensAux l.length l

/-- Decode a token stream: maximal runs of byte tokens are UTF-8 decoded
together (as Python `unquote` does), literal characters pass through. The
accumulator holds the current byte run in reverse. -/
def decodePctTokens : List (Sum Char Nat) → List Nat → List Char
  | [], acc => utf8Decode acc.reverse
  | Sum.inl c :: rest, acc => utf8Decode acc.reverse ++ c :: decodePctTokens rest []
  | Sum.inr b :: rest, acc => decodePctTokens rest (b :: acc)

/-- Model of `urllib.parse.unquote` (with `errors="replace"`). -/
def unquote (s : String) : String :=
  ⟨decodePctTokens (pctTokens s.data) []⟩

/-- Model of `urllib.parse.unquote_plus`: `+` becomes a space, then
percent-decode. -/
def unquote_plus (s : String) : String :=
  unquote ⟨s.data.map fun c => if c == '+' then ' ' else c⟩

/-- Whether a byte is in `urllib`'s always-safe set: ASCII letters, digits,
and `_.-~`. -/
def alwaysSafeByte (b : Nat) : Bool :=
  (0x41 ≤ b && b ≤ 0x5A) || (0x61 ≤ b && b ≤ 0x7A) || (0x30 ≤ b && b ≤ 0x39) ||
    b == 0x5F || b == 0x2E || b == 0x2D || b == 0x7E

/-- Percent-encode one byte, with `+` for space, as `quote_plus` with
`safe=''` does. -/
def quotePlusByte (b : Nat) : List Char :=
  if b == 0x20 then ['+']
  else if alwaysSafeByte b then [Char.ofNat b]
  else ['%', hexDigitUpper (b / 16), hexDigitUpper (b % 16)]

/-- Model of `urllib.parse.quote_plus` with `safe=''` (the quoting used by
`urlencode` for both field names and values). -/
def quote_plus (s : String) : String :=
  ⟨((utf8Encode s).map quotePlusByte).flatten⟩

/-- Model of `urllib.parse.urlencode` on a list of (name, value) pairs:
`name=value` fields with both sides `quote_plus`-quoted, joined by `&`. -/
def urlencode (query : List (String × String)) : String :=
  String.intercalate "&" (query.map fun kv => quote_plus kv.1 ++ "=" ++ quote_plus kv.2)

/-! ## Model of `urllib.parse.parse_qsl` / `parse_qs` (default options) -/

/-- Model of `urllib.parse.parse_qsl` with default options
(`keep_blank_values=False`, separator `&`): split the query on `&`, skip empty
fields, split each field at its first `=` (fields without `=` are dropped),
skip fields whose value is empty, and `unquote_plus` names and values. -/
def parse_qsl (qs : String) : List (String × String) :=
  (listSplit '&' qs.data).filterMap fun field =>
    if field.isEmpty then none
    else
      match splitFirst '=' field with
      | none => none
      | some (n, v) =>
        if v.isEmpty then none
        else some (unquote_plus ⟨n⟩, unquote_plus ⟨v⟩)

/-- Model of `urllib.parse.parse_qs`: group the `parse_qsl` pairs into an
insertion-ordered dictionary from names to lists of values (Python dicts
preserve first-insertion order of keys). -/
def parse_qs (qs : String) : List (String × List String) :=
  (parse_qsl qs).foldl
    (fun acc nv =>
      if acc.any (fun p => p.1 == nv.1) then
        acc.map fun p => if p.1 == nv.1 then (p.1, p.2 ++ [nv.2]) else p
      else acc ++ [(nv.1, [nv.2])])
    []

/-! ## Model of `urllib.parse.urlparse` / `urlunparse` -/

/-- The six components of Python's `ParseResult`. -/
structure ParseResult where
  scheme : String
  netloc : String
  path : String
  params : String
  query : String
  fragment : String
deriving Repr, DecidableEq

/-- Characters allowed after the first character of a URL scheme. -/
def schemeCharOk (c : Char) : Bool :=
  c.isAlphanum || c == '+' || c == '-' || c == '.'

/-- Model of CPython `urllib.parse._splitparams`: split path parameters after
the `;` in the last path segment. -/
def splitparamsL (url : List Char) : List Char × List Char :=
  let search :=
    if url.contains '/' then url.reverse.takeWhile (· != '/')
    else url.reverse
  match splitFirst ';' search.reverse with
  | none => (url, [])
  | some (_, ps) =>
    (url.take (url.length - ps.length - 1), ps)

/-- Model of `urllib.parse.urlparse` (with `allow_fragments=True`): extract
scheme (lowercased, when the prefix before the first `:` is a wellformed
scheme), netloc (after `//`, up to the next `/`, `?` or `#`), fragment (after
the first `#`), query (after the first `?`), and path parameters (after the
`;` of the last path segment). Control-character stripping performed by
CPython before parsing is not modelled. -/
def urlparse (url : String) : ParseResult :=
  let l := url.data
  let (scheme, rest) :=
    match splitFirst ':' l with
    | some (before, after) =>
      match before with
      | c :: tl =>
        if c.isAlpha && tl.all schemeCharOk then
          (⟨(c :: tl).map Char.toLower⟩, after)
        else ("", l)
      | [] => ("", l)
    | none => ("", l)
  let (netloc, rest) :=
    match rest with
    | '/' :: '/' :: after =>
      let nl := after.takeWhile fun c => c != '/' && c != '?' && c != '#'
      (nl, after.drop nl.length)
    | _ => ([], rest)
  let (rest, fragment) :=
    match splitFirst '#' rest with
    | some (a, b) => (a, b)
    | none => (rest, [])
  let (rest, query) :=
    match splitFirst '?' rest with
    | some (a, b) => (a, b)
    | none => (rest, [])
  let (path, params) :=
    if rest.contains ';' then splitparamsL rest else (rest, [])
  { scheme := scheme, netloc := ⟨netloc⟩, path := ⟨path⟩,
    params := ⟨params⟩, query := ⟨query⟩, fragment := ⟨fragment⟩ }

/-- Model of `urllib.parse.urlunsplit`. -/
def urlunsplit (scheme netloc path query fragment : String) : String :=
  let url :=
    if netloc != "" || (path.data.take 2 == ['/', '/']) then
      let u :=
        if path != "" && path.data.take 1 != ['/'] then "/" ++ path else path
      "//" ++ netloc ++ u
    else path
  let url := if scheme != "" then scheme ++ ":" ++ url else url
  let url := if query != "" then url ++ "?" ++ query else url
  if fragment != "" then url ++ "#" ++ fragment else url

/-- Model of `urllib.parse.urlunparse`. -/
def urlunparse (p : ParseResult) : String :=
  let path := if p.params != "" then p.path ++ ";" ++ p.params else p.path
  urlunsplit p.scheme p.netloc path p.query p.fragment

example : urlparse "https://cb.example.com/cb?foo=1" =
    { scheme := "https", netloc := "cb.example.com", path := "/cb",
      params := "", query := "foo=1", fragment := "" } := by decide

example : parse_qs "foo=1&bar=2&foo=3" = [("foo", ["1", "3"]), ("bar", ["2"])] := by decide

example : urlencode [("code", "abc"), ("state", "x y")] = "code=abc&state=x+y" := by decide

example : urlunparse (urlparse "https://cb.example.com/cb?foo=1") =
    "https://cb.example.com/cb?foo=1" := by decide

/-! ## `provider.py`: `construct_redirect_uri`

```python
def construct_redirect_uri(redirect_uri_base: str, **params: str | None) -> str:
    parsed_uri = urlparse(redirect_uri_base)
    query_params = [(k, v) for k, vs in parse_qs(parsed_uri.query) for v in vs]
    for k, v in params.items():
        if v is not None:
            query_params.append((k, v))

    redirect_uri = urlunparse(
        parsed_uri._replace(query=urlencode(query_params))
    )
    return redirect_uri
```

Note the comprehension iterates `parse_qs(parsed_uri.query)` itself, not
`.items()`: iterating a Python dict yields its KEYS (strings, in insertion
order). Each key string is then unpacked into the pair `(k, vs)`, which
raises `ValueError` unless the key has exactly two characters, in which case
`k` and `vs` are its two characters and `for v in vs` iterates the characters
of the one-character string `vs`. The model reproduces this faithfully. -/

/-- Model of Python tuple-unpacking `k, vs = s` of a string `s` into two
targets: succeeds with the two characters exactly when `s` has length two. -/
def unpackPair (s : String) : Except String (String × String) :=
  match s.data with
  | [c1, c2] => .ok (String.singleton c1, String.singleton c2)
  | [] => .error "ValueError: not enough values to unpack (expected 2, got 0)"
  | [_] => .error "ValueError: not enough values to unpack (expected 2, got 1)"
  | _ => .error "ValueError: too many values to unpack (expected 2)"

/-- The `for k, v in params.items(): if v is not None: query_params.append((k, v))`
loop: keyword arguments are an insertion-ordered list of (name, optional
value) pairs, appended in call order, skipping absent values. -/
def appendPresentParams (acc : List (String × String))
    (params : List (String × Option String)) : List (String × String) :=
  params.foldl
    (fun acc kv =>
      match kv.2 with
      | some v => acc ++ [(kv.1, v)]
      | none => acc)
    acc

/-- Model of `construct_redirect_uri` from `provider.py`. The `**params`
keyword arguments are modelled as an insertion-ordered association list
(Python keyword arguments preserve call order). A raised `ValueError` is
modelled as `Except.error`. -/
def construct_redirect_uri (redirect_uri_base : String)
    (params : List (String × Option String)) : Except String String :=
  let parsed_uri := urlparse redirect_uri_base
  match ((parse_qs parsed_uri.query).map Prod.fst).mapM unpackPair with
  | .error e => .error e
  | .ok unpacked =>
    let query_params :=
      (unpacked.map fun kv => kv.2.data.map fun v => (kv.1, String.singleton v)).flatten
    let query_params := appendPresentParams query_params params
    .ok (urlunparse { parsed_uri with query := urlencode query_params })

example : construct_redirect_uri "https://cb.example.com/cb" [("code", some "abc"), ("state", none)] =
    .ok "https://cb.example.com/cb?code=abc" := rfl

/-! ## pydantic `AnyHttpUrl` model

`routes.py` manipulates issuer and endpoint URLs as pydantic `AnyHttpUrl`
values. The model keeps the URL's components; `AnyHttpUrl.build` mirrors
pydantic-core's `Url.build`, which serializes the components into a URL
string and reparses it, in particular giving the path a leading `/` when the
supplied path lacks one (e.g. `build(..., path="token")` yields a URL whose
path is `/token`). -/

structure AnyHttpUrl where
  scheme : String
  username : Option String
  password : Option String
  host : Option String
  port : Option Nat
  path : Option String
  query : Option String
  fragment : Option String
deriving Repr, DecidableEq

/-- Ensure a URL path begins with `/` (the normalization applied when
pydantic reserializes a built URL). -/
def ensureLeadingSlash (path : String) : String :=
  if path.data.take 1 == ['/'] then path else "/" ++ path

/-- Model of `pydantic.AnyHttpUrl.build` as called by `modify_url_path`
(keyword arguments `scheme`, `username`, `password`, `host`, `port`, `path`,
`query`, `fragment`). -/
def AnyHttpUrl.build (scheme : String) (username password : Option String)
    (host : Option String) (port : Option Nat) (path : String)
    (query fragment : Option String) : AnyHttpUrl :=
  { scheme := scheme, username := username, password := password,
    host := host, port := port, path := some (ensureLeadingSlash path),
    query := query, fragment := fragment }

/-- Serialization of an `AnyHttpUrl` (model of `str(url)` on a pydantic URL,
for URLs that carry no default-port redundancy). -/
def AnyHttpUrl.unicodeString (u : AnyHttpUrl) : String :=
  let userinfo :=
    match u.username with
    | none => ""
    | some user =>
      (match u.password with
       | none => user
       | some pw => user ++ ":" ++ pw) ++ "@"
  u.scheme ++ "://" ++ userinfo ++
    (match u.host with | none => "" | some h => h) ++
    (match u.port with | none => "" | some p => ":" ++ toString p) ++
    (match u.path with | none => "" | some p => p) ++
    (match u.query with | none => "" | some q => "?" ++ q) ++
    (match u.fragment with | none => "" | some f => "#" ++ f)

/-! ## `routes.py`: issuer validation, metadata, route table -/

/-- Whether the URL host is a string beginning with `127.0.0.1`
(`url.host is not None and url.host.startswith("127.0.0.1")`). -/
def hostStartsWith127 : Option String → Bool
  | none => false
  | some h => List.isPrefixOf "127.0.0.1".data h.data

/-- Model of `validate_issuer_url` from `routes.py`: a raised `ValueError` is
`Except.error` with the exception's message. -/
def validate_issuer_url (url : AnyHttpUrl) : Except String Unit :=
  if url.scheme != "https" && url.host != some "localhost" &&
      !(hostStartsWith127 url.host) then
    .error "Issuer URL must be HTTPS"
  else if pyTruthy url.fragment then
    .error "Issuer URL must not have a fragment"
  else if pyTruthy url.query then
    .error "Issuer URL must not have a query string"
  else
    .ok ()

def AUTHORIZATION_PATH : String := "/authorize"
def TOKEN_PATH : String := "/token"
def REGISTRATION_PATH : String := "/register"
def REVOCATION_PATH : String := "/revoke"

/-- `ClientRegistrationOptions` from `mcp.server.auth.settings`. That module
is not under src/; `routes.py` only reads its `enabled` flag (spec:
"registration options (enabled flag plus policy knobs)"), so only that flag
is modelled. Default: disabled. -/
structure ClientRegistrationOptions where
  enabled : Bool
deriving Repr, DecidableEq

/-- `RevocationOptions` from `mcp.server.auth.settings` (not under src/);
`routes.py` only reads its `enabled` flag. Default: disabled. -/
structure RevocationOptions where
  enabled : Bool
deriving Repr, DecidableEq

/-- The fields of `mcp.shared.auth.OAuthMetadata` (the pydantic model is not
under src/; the fields mirror exactly the keyword arguments `build_metadata`
passes and the two fields it assigns afterwards). `none` models an absent
optional field. -/
structure OAuthMetadata where
  issuer : AnyHttpUrl
  authorization_endpoint : AnyHttpUrl
  token_endpoint : AnyHttpUrl
  registration_endpoint : Option AnyHttpUrl
  scopes_supported : Option (List String)
  response_types_supported : List String
  response_modes_supported : Option (List String)
  grant_types_supported : Option (List String)
  token_endpoint_auth_methods_supported : Option (List String)
  token_endpoint_auth_signing_alg_values_supported : Option (List String)
  service_documentation : Option AnyHttpUrl
  ui_locales_supported : Option (List String)
  op_policy_uri : Option AnyHttpUrl
  op_tos_uri : Option AnyHttpUrl
  revocation_endpoint : Option AnyHttpUrl
  revocation_endpoint_auth_methods_supported : Option (List String)
  introspection_endpoint : Option AnyHttpUrl
  code_challenge_methods_supported : Option (List String)
deriving Repr, DecidableEq

/-- Model of `modify_url_path` from `routes.py`:
`AnyHttpUrl.build(..., path=path_mapper(url.path or ""), ...)`. -/
def modify_url_path (url : AnyHttpUrl) (path_mapper : String → String) : AnyHttpUrl :=
  AnyHttpUrl.build url.scheme url.username url.password url.host url.port
    (path_mapper (pyOrOptStr url.path "")) url.query url.fragment

/-- Model of `build_metadata` from `routes.py`. Each endpoint URL is derived
with `modify_url_path` and the mapper
`lambda path: path.rstrip("/") + SUFFIX.lstrip("/")`. -/
def build_metadata (issuer_url : AnyHttpUrl)
    (service_documentation_url : Option AnyHttpUrl)
    (client_registration_options : ClientRegistrationOptions)
    (revocation_options : RevocationOptions) : OAuthMetadata :=
  let authorization_url := modify_url_path issuer_url fun path =>
    rstripChar '/' path ++ lstripChar '/' AUTHORIZATION_PATH
  let token_url := modify_url_path issuer_url fun path =>
    rstripChar '/' path ++ lstripChar '/' TOKEN_PATH
  let metadata : OAuthMetadata :=
    { issuer := issuer_url,
      authorization_endpoint := authorization_url,
      token_endpoint := token_url,
      registration_endpoint := none,
      scopes_supported := none,
      response_types_supported := ["code"],
      response_modes_supported := none,
      grant_types_supported := some ["authorization_code", "refresh_token"],
      token_endpoint_auth_methods_supported := some ["client_secret_post"],
      token_endpoint_auth_signing_alg_values_supported := none,
      service_documentation := service_documentation_url,
      ui_locales_supported := none,
      op_policy_uri := none,
      op_tos_uri := none,
      revocation_endpoint := none,
      revocation_endpoint_auth_methods_supported := none,
      introspection_endpoint := none,
      code_challenge_methods_supported := some ["S256"] }
  let metadata :=
    if client_registration_options.enabled then
      { metadata with
          registration_endpoint := some (modify_url_path issuer_url fun path =>
            rstripChar '/' path ++ lstripChar '/' REGISTRATION_PATH) }
    else metadata
  let metadata :=
    if revocation_options.enabled then
      { metadata with
          revocation_endpoint := some (modify_url_path issuer_url fun path =>
            rstripChar '/' path ++ lstripChar '/' REVOCATION_PATH),
          revocation_endpoint_auth_methods_supported := some ["client_secret_post"] }
    else metadata
  metadata

inductive HttpMethod where
  | GET
  | POST
deriving Repr, DecidableEq

/-- A starlette `Route` binding, reduced to its path and methods. The
`endpoint` handler objects (`MetadataHandler`, `AuthorizationHandler`,
`TokenHandler`, `RegistrationHandler`, `RevocationHandler`) live in modules
outside src/ and are external collaborators per the spec; the route-table
claims are about which paths and methods are bound. -/
structure Route where
  path : String
  methods : List HttpMethod
deriving Repr, DecidableEq

/-- Model of `create_auth_routes` from `routes.py`. The `provider` argument
is consumed only by the external handler constructors and does not influence
the route table, so it is not a parameter of the model. `None` option
arguments are replaced by disabled-by-default option objects
(`client_registration_options or ClientRegistrationOptions()`). -/
def create_auth_routes (issuer_url : AnyHttpUrl)
    (service_documentation_url : Option AnyHttpUrl)
    (client_registration_options : Option ClientRegistrationOptions)
    (revocation_options : Option RevocationOptions) :
    Except String (List Route) :=
  match validate_issuer_url issuer_url with
  | .error e => .error e
  | .ok _ =>
    let client_registration_options :=
      client_registration_options.getD { enabled := false }
    let revocation_options := revocation_options.getD { enabled := false }
    let _metadata := build_metadata issuer_url service_documentation_url
      client_registration_options revocation_options
    let routes : List Route :=
      [{ path := "/.well-known/oauth-authorization-server", methods := [.GET] },
       { path := AUTHORIZATION_PATH, methods := [.GET, .POST] },
       { path := TOKEN_PATH, methods := [.POST] }]
    let routes :=
      if client_registration_options.enabled then
        routes ++ [{ path := REGISTRATION_PATH, methods := [.POST] }]
      else routes
    let routes :=
      if revocation_options.enabled then
        routes ++ [{ path := REVOCATION_PATH, methods := [.POST] }]
      else routes
    .ok routes

/-! ## `provider.py`: data model and the provider contract

`OAuthServerProvider` is a `typing.Protocol` — an abstract interface with no
concrete implementation under src/. The data model classes below are embedded
from their pydantic `BaseModel` definitions in `provider.py`; the mutable
provider behaviour required by the contract's documentation is modelled from
the spec where noted. -/

/-- `AuthorizationParams` from `provider.py`. -/
structure AuthorizationParams where
  state : Option String
  scopes : Option (List String)
  code_challenge : String
  redirect_uri : AnyHttpUrl
deriving Repr, DecidableEq

/-- `AuthorizationCode` from `provider.py`. The source's `expires_at: float`
epoch timestamp is modelled as an integer timestamp; no claim performs
fractional-time arithmetic. -/
structure AuthorizationCode where
  code : String
  scopes : List String
  expires_at : Int
  client_id : String
  code_challenge : String
  redirect_uri : AnyHttpUrl
deriving Repr, DecidableEq

/-- `RefreshToken` from `provider.py`. -/
structure RefreshToken where
  token : String
  client_id : String
  scopes : List String
  expires_at : Option Int
deriving Repr, DecidableEq

inductive TokenTypeHint where
  | access_token
  | refresh_token
deriving Repr, DecidableEq

/-- `OAuthTokenRevocationRequest` from `provider.py` (RFC 7009 §2.1). -/
structure OAuthTokenRevocationRequest where
  token : String
  token_type_hint : Option TokenTypeHint
deriving Repr, DecidableEq

/-- Modelled from the spec: `TokenSuccessResult` is an external entity
("access token, token type, expiry, optional refresh token, granted scope",
spec §3); the pydantic model `mcp.shared.auth.TokenSuccessResponse` is not
under src/. -/
structure TokenSuccessResponse where
  access_token : String
  token_type : String
  expires_in : Option Int
  refresh_token : Option String
  scope : Option String
deriving Repr, DecidableEq

/-- Modelled from the spec: `OAuthServerProvider` is only a Protocol, so a
concrete provider's mutable state is not under src/. Per spec §3/§5, the
state relevant to code exchange and revocation is the collection of
outstanding authorization codes and of issued, not-yet-revoked tokens. -/
structure ProviderState where
  codes : List AuthorizationCode
  tokens : List String
deriving Repr, DecidableEq

/-- Modelled from the spec: `exchange_authorization_code` has no concrete
implementation under src/ (only the Protocol stub). Spec §4.1: it "fails for
expired/mismatched-client/mismatched-redirect codes" and "must atomically
invalidate the code so no other concurrent call can also succeed for it";
§3: "single-use — a successful exchange must make all subsequent exchange
attempts for the same code fail". A successful exchange therefore removes
every stored code record carrying the exchanged code value. -/
def exchange_authorization_code (st : ProviderState) (client_id : String)
    (now : Int) (authorization_code : AuthorizationCode) :
    Except String (TokenSuccessResponse × ProviderState) :=
  if st.codes.any fun c => c.code == authorization_code.code then
    if authorization_code.client_id != client_id then
      .error "invalid_grant: client mismatch"
    else if authorization_code.expires_at < now then
      .error "invalid_grant: code expired"
    else
      .ok ({ access_token := "access:" ++ authorization_code.code,
             token_type := "bearer", expires_in := none,
             refresh_token := none, scope := none },
           { st with
               codes := st.codes.filter fun c => c.code != authorization_code.code,
               tokens := st.tokens ++ ["access:" ++ authorization_code.code] })
  else
    .error "invalid_grant: authorization code not found"

/-- The provider state after a sequence of further
`exchange_authorization_code` calls, each call described by
(client id, current time, presented code record); failed calls leave the
state unchanged. -/
def runExchanges (st : ProviderState) :
    List (String × Int × AuthorizationCode) → ProviderState
  | [] => st
  | call :: rest =>
    match exchange_authorization_code st call.1 call.2.1 call.2.2 with
    | .ok r => runExchanges r.2 rest
    | .error _ => runExchanges st rest

/-- Modelled from the spec: `revoke_token` has no concrete implementation
under src/ (only the Protocol stub). Its contract ("If the given token is
invalid or already revoked, this method should do nothing", docstring in
`provider.py`; spec §4.1: "Idempotent: invalid, unknown, or already-revoked
tokens cause no error and no observable effect — the call simply succeeds")
makes it a total function on the provider state: remove the token when
present, change nothing otherwise, never signal an error. -/
def revoke_token (st : ProviderState) (_client_id : String)
    (request : OAuthTokenRevocationRequest) : ProviderState :=
  { st with tokens := st.tokens.filter fun t => t != request.token }

/-! ## Concrete fixtures used by witnesses -/

/-- The pydantic parse of `"https://auth.example.com"`: path normalized to
`/`, default port elided in serialization. -/
def issuerAuthExample : AnyHttpUrl :=
  { scheme := "https", username := none, password := none,
    host := some "auth.example.com", port := none, path := some "/",
    query := none, fragment := none }

/-- An issuer with a non-root path, `"https://auth.example.com/base/"`. -/
def issuerBaseExample : AnyHttpUrl :=
  { scheme := "https", username := none, password := none,
    host := some "auth.example.com", port := none, path := some "/base/",
    query := none, fragment := none }

/-- An insecure non-loopback issuer, `"http://evil.example.com"`. -/
def issuerInsecureExample : AnyHttpUrl :=
  { scheme := "http", username := none, password := none,
    host := some "evil.example.com", port := none, path := some "/",
    query := none, fragment := none }

/-- An insecure loopback issuer, `"http://localhost"`. -/
def issuerLocalhostExample : AnyHttpUrl :=
  { scheme := "http", username := none, password := none,
    host := some "localhost", port := none, path := some "/",
    query := none, fragment := none }

/-- A secure issuer carrying a fragment. -/
def issuerFragmentExample : AnyHttpUrl :=
  { scheme := "https", username := none, password := none,
    host := some "auth.example.com", port := none, path := some "/",
    query := none, fragment := some "frag" }

/-! ## Claim theorems -/

/-- **C1** (code bug evidence): on the spec's own example — base
`https://cb.example.com/cb?foo=1` with `code="abc"` and `state` absent —
`construct_redirect_uri` does not return
`https://cb.example.com/cb?foo=1&code=abc`; it raises `ValueError`. The
comprehension in `provider.py` line 216 iterates `parse_qs(parsed_uri.query)`
without `.items()`, so it iterates the dict's keys and unpacks the
three-character key string `"foo"` into the two targets `k, vs`. -/
theorem construct_redirect_uri_raises_on_query_base :
    construct_redirect_uri "https://cb.example.com/cb?foo=1"
      [("code", some "abc"), ("state", none)] =
      .error "ValueError: too many values to unpack (expected 2)" := rfl

/-- **C5**: for issuer `https://auth.example.com` with registration and
revocation disabled, `build_metadata` omits `registration_endpoint` and
`revocation_endpoint`, and `token_endpoint` serializes to
`https://auth.example.com/token`. -/
theorem build_metadata_disabled_options_example :
    (build_metadata issuerAuthExample none { enabled := false }
        { enabled := false }).registration_endpoint = none ∧
    (build_metadata issuerAuthExample none { enabled := false }
        { enabled := false }).revocation_endpoint = none ∧
    (build_metadata issuerAuthExample none { enabled := false }
        { enabled := false }).token_endpoint.unicodeString =
      "https://auth.example.com/token" :=
  ⟨rfl, rfl, rfl⟩

/-- **C3**: an issuer URL with a non-`https` scheme whose host is neither
exactly `localhost` nor `127.0.0.1`-prefixed is rejected with the HTTPS
error; a secure scheme or a loopback host means the scheme rule never causes
a failure (validation can still fail on fragment or query, but not with the
HTTPS error). -/
theorem validate_issuer_url_scheme_rule (url : AnyHttpUrl) :
    (url.scheme ≠ "https" → url.host ≠ some "localhost" →
      hostStartsWith127 url.host = false →
      validate_issuer_url url = .error "Issuer URL must be HTTPS") ∧
    (url.scheme = "https" ∨ url.host = some "localhost" ∨
        hostStartsWith127 url.host = true →
      validate_issuer_url url ≠ .error "Issuer URL must be HTTPS") := by
  constructor
  · intro h1 h2 h3
    have hc : (url.scheme != "https" && url.host != some "localhost" &&
        !hostStartsWith127 url.host) = true := by
      simp [bne_iff_ne, h1, h2, h3]
    simp [validate_issuer_url, hc]
  · intro h
    have hc : (url.scheme != "https" && url.host != some "localhost" &&
        !hostStartsWith127 url.host) = false := by
      rcases h with h | h | h <;> simp [bne_iff_ne, h]
    simp only [validate_issuer_url, hc]
    split
    · rename_i hcond
      simp at hcond
    · split
      · simp
      · split
        · simp
        · simp

theorem validate_issuer_url_scheme_rule_witness :
    validate_issuer_url issuerInsecureExample = .error "Issuer URL must be HTTPS" ∧
    validate_issuer_url issuerLocalhostExample ≠ .error "Issuer URL must be HTTPS" :=
  ⟨(validate_issuer_url_scheme_rule issuerInsecureExample).1 (by decide) (by decide)
      (by decide),
   (validate_issuer_url_scheme_rule issuerLocalhostExample).2 (Or.inr (Or.inl rfl))⟩

/-- **C4**: an issuer URL with a non-empty fragment or a non-empty query
component always fails validation, whatever its scheme and host (when the
scheme rule also fires, the failure is the scheme failure; the call still
fails). -/
theorem validate_issuer_url_fragment_query (url : AnyHttpUrl)
    (h : pyTruthy url.fragment = true ∨ pyTruthy url.query = true) :
    ∃ msg, validate_issuer_url url = .error msg := by
  unfold validate_issuer_url
  split
  · exact ⟨_, rfl⟩
  · split
    · exact ⟨_, rfl⟩
    · rename_i hfrag
      split
      · exact ⟨_, rfl⟩
      · rename_i hq
        rcases h with h | h
        · exact absurd h hfrag
        · exact absurd h hq

theorem validate_issuer_url_fragment_query_witness :
    (pyTruthy issuerFragmentExample.fragment = true ∨
      pyTruthy issuerFragmentExample.query = true) ∧
    ∃ msg, validate_issuer_url issuerFragmentExample = .error msg :=
  ⟨Or.inl rfl, validate_issuer_url_fragment_query issuerFragmentExample (Or.inl rfl)⟩

/-- **C9**: revoking an invalid, unknown, or already-revoked token is a
successful no-op (the operation is total — it cannot signal an error — and
leaves the state untouched), and a second revocation of the same token is
observably identical to the first. -/
theorem revoke_token_noop_idempotent (st : ProviderState) (cid cid2 : String)
    (req : OAuthTokenRevocationRequest) (h : req.token ∉ st.tokens) :
    revoke_token st cid req = st ∧
    revoke_token (revoke_token st cid req) cid2 req = revoke_token st cid req := by
  constructor
  · show ({ st with tokens := st.tokens.filter fun t => t != req.token } :
        ProviderState) = st
    have hf : st.tokens.filter (fun t => t != req.token) = st.tokens := by
      apply List.filter_eq_self.mpr
      intro t ht
      simp only [bne_iff_ne, ne_eq, decide_eq_true_eq]
      exact fun e => h (e ▸ ht)
    rw [hf]
  · show ({ st with tokens :=
        (st.tokens.filter fun t => t != req.token).filter fun t => t != req.token } :
        ProviderState) = _
    rw [List.filter_filter]
    simp [revoke_token]

theorem revoke_token_noop_idempotent_witness :
    ("tokA" ∉ (⟨[], ["tokB"]⟩ : ProviderState).tokens) ∧
    (revoke_token ⟨[], ["tokB"]⟩ "c1" ⟨"tokA", none⟩ = ⟨[], ["tokB"]⟩ ∧
      revoke_token (revoke_token ⟨[], ["tokB"]⟩ "c1" ⟨"tokA", none⟩) "c2" ⟨"tokA", none⟩ =
        revoke_token ⟨[], ["tokB"]⟩ "c1" ⟨"tokA", none⟩) :=
  ⟨by decide,
   revoke_token_noop_idempotent ⟨[], ["tokB"]⟩ "c1" "c2" ⟨"tokA", none⟩ (by decide)⟩

/-! ## Supporting lemmas for C8 and C10 -/

/-- No code record in the provider state carries the code value `x`. -/
def noCode (x : String) (st : ProviderState) : Prop :=
  ∀ c ∈ st.codes, c.code ≠ x

theorem exchange_ok_codes (st : ProviderState) (cid : String) (now : Int)
    (ac : AuthorizationCode) (tok : TokenSuccessResponse) (st' : ProviderState)
    (h : exchange_authorization_code st cid now ac = .ok (tok, st')) :
    st'.codes = st.codes.filter fun c => c.code != ac.code := by
  unfold exchange_authorization_code at h
  split at h
  · split at h
    · exact absurd h (by simp)
    · split at h
      · exact absurd h (by simp)
      · simp only [Except.ok.injEq, Prod.mk.injEq] at h
        rw [← h.2]
  · exact absurd h (by simp)

theorem runExchanges_noCode (x : String) (st : ProviderState)
    (calls : List (String × Int × AuthorizationCode)) (h : noCode x st) :
    noCode x (runExchanges st calls) := by
  induction calls generalizing st with
  | nil => exact h
  | cons call rest ih =>
    unfold runExchanges
    cases he : exchange_authorization_code st call.1 call.2.1 call.2.2 with
    | error e => exact ih st h
    | ok r =>
      apply ih
      intro c hc
      rw [exchange_ok_codes st call.1 call.2.1 call.2.2 r.1 r.2
        (by rw [he])] at hc
      exact h c (List.mem_of_mem_filter hc)

theorem noCode_exchange_fails (st : ProviderState) (cid : String) (now : Int)
    (ac : AuthorizationCode) (h : noCode ac.code st) :
    exchange_authorization_code st cid now ac =
      .error "invalid_grant: authorization code not found" := by
  unfold exchange_authorization_code
  rw [if_neg]
  intro hany
  simp only [List.any_eq_true] at hany
  obtain ⟨c, hc, he⟩ := hany
  exact h c hc (by simpa using he)

theorem appendPresentParams_eq (params : List (String × Option String))
    (acc : List (String × String)) :
    appendPresentParams acc params =
      acc ++ params.filterMap fun kv => kv.2.map fun v => (kv.1, v) := by
  induction params generalizing acc with
  | nil => simp [appendPresentParams]
  | cons kv rest ih =>
    unfold appendPresentParams at ih ⊢
    cases hv : kv.2 with
    | none => simp [List.foldl_cons, hv, ih]
    | some v => simp [List.foldl_cons, hv, ih]

/-! ## Claim theorems, continued -/

/-- **C8**: once `exchange_authorization_code` has succeeded for a code
value, every subsequent exchange attempt presenting the same code value —
immediately, or after any further sequence of exchange calls, by any client,
at any time — fails: the successful exchange invalidated the code. -/
theorem exchange_authorization_code_single_use (st : ProviderState)
    (cid : String) (now : Int) (ac : AuthorizationCode)
    (tok : TokenSuccessResponse) (st' : ProviderState)
    (h : exchange_authorization_code st cid now ac = .ok (tok, st'))
    (calls : List (String × Int × AuthorizationCode))
    (cid2 : String) (now2 : Int) (ac2 : AuthorizationCode)
    (hcode : ac2.code = ac.code) :
    exchange_authorization_code (runExchanges st' calls) cid2 now2 ac2 =
      .error "invalid_grant: authorization code not found" := by
  apply noCode_exchange_fails
  rw [hcode]
  apply runExchanges_noCode
  intro c hc
  rw [exchange_ok_codes st cid now ac tok st' h] at hc
  simpa using (List.of_mem_filter hc)

/-- A stored authorization code for the C8 witness. -/
def acExample : AuthorizationCode :=
  { code := "authcode1", scopes := [], expires_at := 1000,
    client_id := "client1", code_challenge := "chal",
    redirect_uri := { scheme := "https", username := none, password := none,
                      host := some "cb.example.com", port := none,
                      path := some "/cb", query := none, fragment := none } }

theorem exchange_authorization_code_single_use_witness :
    exchange_authorization_code ⟨[acExample], []⟩ "client1" 0 acExample =
      .ok ({ access_token := "access:authcode1", token_type := "bearer",
             expires_in := none, refresh_token := none, scope := none },
           ⟨[], ["access:authcode1"]⟩) ∧
    exchange_authorization_code (runExchanges ⟨[], ["access:authcode1"]⟩ [])
        "client1" 0 acExample =
      .error "invalid_grant: authorization code not found" :=
  ⟨rfl,
   exchange_authorization_code_single_use ⟨[acExample], []⟩ "client1" 0 acExample
     { access_token := "access:authcode1", token_type := "bearer",
       expires_in := none, refresh_token := none, scope := none }
     ⟨[], ["access:authcode1"]⟩ rfl [] "client1" 0 acExample rfl⟩

/-- **C10**: when the base redirect URL has an empty query component,
`construct_redirect_uri` succeeds, and the produced URL is the base URL with
its query set to exactly the URL-encoding of the supplied (name, value)
parameters that are present, in call order — all other URL components are
those of the base. -/
theorem construct_redirect_uri_empty_query (base : String)
    (params : List (String × Option String))
    (h : (urlparse base).query = "") :
    construct_redirect_uri base params =
      .ok (urlunparse { urlparse base with
        query := urlencode (params.filterMap fun kv => kv.2.map fun v => (kv.1, v)) }) := by
  have hq : parse_qs (urlparse base).query = [] := by rw [h]; rfl
  simp only [construct_redirect_uri, hq]
  simp only [appendPresentParams_eq, List.mapM.loop]
  rfl

theorem construct_redirect_uri_empty_query_witness :
    (urlparse "https://cb.example.com/cb").query = "" ∧
    construct_redirect_uri "https://cb.example.com/cb"
        [("code", some "abc"), ("state", none)] =
      .ok (urlunparse { urlparse "https://cb.example.com/cb" with
        query := urlencode (([("code", some "abc"), ("state", none)] :
            List (String × Option String)).filterMap
          fun kv => kv.2.map fun v => (kv.1, v)) }) :=
  ⟨rfl, construct_redirect_uri_empty_query "https://cb.example.com/cb"
    [("code", some "abc"), ("state", none)] rfl⟩

/-! ## Supporting lemmas for C2 -/

theorem take_one_append {α : Type} (l₁ l₂ : List α) (h : l₁ ≠ []) :
    (l₁ ++ l₂).take 1 = l₁.take 1 := by
  cases l₁ with
  | nil => exact absurd rfl h
  | cons a t => simp

theorem string_data_append (a b : String) : (a ++ b).data = a.data ++ b.data := rfl

/-- The path-concatenation rule of §4.4/§9: strip any trailing slash from the
issuer path (absent or empty path counts as empty), strip any leading slash
from the suffix, join directly with no separator. -/
def stripJoinPath (base : Option String) (suffix : String) : String :=
  rstripChar '/' (pyOrOptStr base "") ++ lstripChar '/' suffix

/-- What C2 requires of an advertised endpoint URL `e` derived from `issuer`
with path suffix `suffix`: scheme, userinfo, host, port, query, and fragment
are the issuer's unchanged; the path is the no-separator join (as reserialized
by pydantic, which guarantees a leading slash); and whenever the issuer path
is a normal absolute path whose trailing-slash-stripped form is non-empty,
the endpoint path is literally the join with no separator inserted. -/
def endpointSpec (issuer e : AnyHttpUrl) (suffix : String) : Prop :=
  e.scheme = issuer.scheme ∧ e.username = issuer.username ∧
  e.password = issuer.password ∧ e.host = issuer.host ∧ e.port = issuer.port ∧
  e.query = issuer.query ∧ e.fragment = issuer.fragment ∧
  e.path = some (ensureLeadingSlash (stripJoinPath issuer.path suffix)) ∧
  (∀ p, issuer.path = some p → p.data.take 1 = ['/'] → rstripChar '/' p ≠ "" →
    e.path = some (rstripChar '/' p ++ lstripChar '/' suffix))

theorem rstripChar_data (ch : Char) (s : String) :
    (rstripChar ch s).data = List.rdropWhile (· == ch) s.data := rfl

theorem rstripChar_take_one (p : String) (h1 : p.data.take 1 = ['/'])
    (h2 : rstripChar '/' p ≠ "") : (rstripChar '/' p).data.take 1 = ['/'] := by
  have hne : List.rdropWhile (· == '/') p.data ≠ [] := by
    intro e
    apply h2
    show (⟨List.rdropWhile (· == '/') p.data⟩ : String) = ""
    rw [e]
  obtain ⟨t, ht⟩ := List.rdropWhile_prefix (· == '/') p.data
  have hto := take_one_append (List.rdropWhile (· == '/') p.data) t hne
  rw [ht] at hto
  rw [rstripChar_data, ← hto, h1]

theorem ensureLeadingSlash_of_slash (s : String) (h : s.data.take 1 = ['/']) :
    ensureLeadingSlash s = s := by
  unfold ensureLeadingSlash
  rw [if_pos]
  rw [h]
  rfl

/-- `modify_url_path` with the `rstrip`/`lstrip` join mapper meets
`endpointSpec`. -/
theorem modify_url_path_join_spec (issuer : AnyHttpUrl) (suffix : String) :
    endpointSpec issuer
      (modify_url_path issuer fun path =>
        rstripChar '/' path ++ lstripChar '/' suffix) suffix := by
  refine ⟨rfl, rfl, rfl, rfl, rfl, rfl, rfl, rfl, ?_⟩
  intro p hp h1 h2
  have hpne : p ≠ "" := by
    intro e
    rw [e] at h1
    simp at h1
  have hpy : pyOrOptStr issuer.path "" = p := by
    rw [hp]
    simp [pyOrOptStr, pyOrStr, hpne]
  show some (ensureLeadingSlash (rstripChar '/' (pyOrOptStr issuer.path "") ++
      lstripChar '/' suffix)) = _
  rw [hpy]
  congr 1
  apply ensureLeadingSlash_of_slash
  rw [string_data_append]
  have hne : (rstripChar '/' p).data ≠ [] := by
    intro e
    apply h2
    show (⟨(rstripChar '/' p).data⟩ : String) = ""
    rw [e]
  rw [take_one_append _ _ hne]
  exact rstripChar_take_one p h1 h2

/-- **C2**: every endpoint URL `build_metadata` advertises (authorize, token,
and — when enabled — register and revoke) is derived from the issuer URL by
the literal concatenation rule (strip trailing slash from the issuer path,
strip leading slash from the suffix, join with no separator), preserving the
issuer's scheme, host, port, query, and fragment. -/
theorem build_metadata_endpoint_derivation (issuer : AnyHttpUrl)
    (doc : Option AnyHttpUrl) (reg : ClientRegistrationOptions)
    (rev : RevocationOptions) :
    endpointSpec issuer
      (build_metadata issuer doc reg rev).authorization_endpoint
      AUTHORIZATION_PATH ∧
    endpointSpec issuer
      (build_metadata issuer doc reg rev).token_endpoint TOKEN_PATH ∧
    (reg.enabled = true →
      ∃ e, (build_metadata issuer doc reg rev).registration_endpoint = some e ∧
        endpointSpec issuer e REGISTRATION_PATH) ∧
    (rev.enabled = true →
      ∃ e, (build_metadata issuer doc reg rev).revocation_endpoint = some e ∧
        endpointSpec issuer e REVOCATION_PATH) := by
  obtain ⟨rb⟩ := reg
  obtain ⟨vb⟩ := rev
  refine ⟨?_, ?_, ?_, ?_⟩
  · cases rb <;> cases vb <;>
      exact modify_url_path_join_spec issuer AUTHORIZATION_PATH
  · cases rb <;> cases vb <;>
      exact modify_url_path_join_spec issuer TOKEN_PATH
  · cases rb with
    | false => intro he; exact Bool.noConfusion he
    | true =>
      intro _
      cases vb <;>
        exact ⟨_, rfl, modify_url_path_join_spec issuer REGISTRATION_PATH⟩
  · cases vb with
    | false => intro he; exact Bool.noConfusion he
    | true =>
      intro _
      cases rb <;>
        exact ⟨_, rfl, modify_url_path_join_spec issuer REVOCATION_PATH⟩

theorem build_metadata_endpoint_derivation_witness :
    (build_metadata issuerBaseExample none { enabled := true }
        { enabled := true }).token_endpoint.path = some "/basetoken" := by
  have h := (build_metadata_endpoint_derivation issuerBaseExample none
    { enabled := true } { enabled := true }).2.1
  have h9 := h.2.2.2.2.2.2.2.2 "/base/" rfl (by decide) (by decide)
  rw [h9]
  rfl

/-! ## Supporting lemma for C7 -/

theorem create_auth_routes_ok_shape (issuer : AnyHttpUrl)
    (doc : Option AnyHttpUrl) (regO : Option ClientRegistrationOptions)
    (revO : Option RevocationOptions)
    (h : validate_issuer_url issuer = .ok ()) :
    create_auth_routes issuer doc regO revO = .ok
      ([{ path := "/.well-known/oauth-authorization-server", methods := [.GET] },
        { path := AUTHORIZATION_PATH, methods := [.GET, .POST] },
        { path := TOKEN_PATH, methods := [.POST] }] ++
       (if (regO.getD { enabled := false }).enabled then
          [{ path := REGISTRATION_PATH, methods := [.POST] }] else []) ++
       (if (revO.getD { enabled := false }).enabled then
          [{ path := REVOCATION_PATH, methods := [.POST] }] else [])) := by
  rcases regO with _ | ⟨_ | _⟩ <;> rcases revO with _ | ⟨_ | _⟩ <;>
    simp only [create_auth_routes, h] <;> rfl

/-! ## Claim theorems, continued -/

/-- **C7**: `create_auth_routes` validates the issuer URL before building
anything — an invalid issuer yields the validation error and no (partial)
route table — and for a valid issuer the table always starts with, and hence
contains, discovery metadata at GET
`/.well-known/oauth-authorization-server`, GET and POST `/authorize`, and
POST `/token`. -/
theorem create_auth_routes_validates_then_binds (issuer : AnyHttpUrl)
    (doc : Option AnyHttpUrl) (regO : Option ClientRegistrationOptions)
    (revO : Option RevocationOptions) :
    (∀ msg, validate_issuer_url issuer = .error msg →
      create_auth_routes issuer doc regO revO = .error msg) ∧
    (validate_issuer_url issuer = .ok () →
      ∃ l, create_auth_routes issuer doc regO revO = .ok l ∧
        l.take 3 =
          [{ path := "/.well-known/oauth-authorization-server", methods := [.GET] },
           { path := AUTHORIZATION_PATH, methods := [.GET, .POST] },
           { path := TOKEN_PATH, methods := [.POST] }] ∧
        ({ path := "/.well-known/oauth-authorization-server",
           methods := [.GET] } : Route) ∈ l ∧
        ({ path := AUTHORIZATION_PATH, methods := [.GET, .POST] } : Route) ∈ l ∧
        ({ path := TOKEN_PATH, methods := [.POST] } : Route) ∈ l) := by
  constructor
  · intro msg hmsg
    simp [create_auth_routes, hmsg]
  · intro hok
    refine ⟨_, create_auth_routes_ok_shape issuer doc regO revO hok, rfl, ?_, ?_, ?_⟩ <;>
      simp

theorem create_auth_routes_validates_then_binds_witness :
    (create_auth_routes issuerFragmentExample none none none =
        .error "Issuer URL must not have a fragment" ∧
      validate_issuer_url issuerFragmentExample =
        .error "Issuer URL must not have a fragment") ∧
    (validate_issuer_url issuerAuthExample = .ok () ∧
      ∃ l, create_auth_routes issuerAuthExample none none none = .ok l ∧
        l.take 3 =
          [{ path := "/.well-known/oauth-authorization-server", methods := [.GET] },
           { path := AUTHORIZATION_PATH, methods := [.GET, .POST] },
           { path := TOKEN_PATH, methods := [.POST] }] ∧
        ({ path := "/.well-known/oauth-authorization-server",
           methods := [.GET] } : Route) ∈ l ∧
        ({ path := AUTHORIZATION_PATH, methods := [.GET, .POST] } : Route) ∈ l ∧
        ({ path := TOKEN_PATH, methods := [.POST] } : Route) ∈ l) :=
  ⟨⟨(create_auth_routes_validates_then_binds issuerFragmentExample none none none).1
      "Issuer URL must not have a fragment" rfl, rfl⟩,
   rfl,
   (create_auth_routes_validates_then_binds issuerAuthExample none none none).2 rfl⟩

/-- **C6**: relative to any fixed configuration, enabling client registration
adds exactly one route — POST `/register`, inserted after the three base
routes — and exactly one metadata field, `registration_endpoint`; enabling
revocation adds exactly one route — POST `/revoke`, appended at the end —
and exactly two metadata fields, `revocation_endpoint` and
`revocation_endpoint_auth_methods_supported`. All other routes and fields
are identical, and the added fields are absent when the feature is
disabled. -/
theorem enabling_features_adds_routes_and_fields (issuer : AnyHttpUrl)
    (doc : Option AnyHttpUrl) (b : Bool) :
    (create_auth_routes issuer doc (some { enabled := true }) (some { enabled := b }) =
      (create_auth_routes issuer doc (some { enabled := false })
          (some { enabled := b })).map fun l =>
        l.take 3 ++ [{ path := REGISTRATION_PATH, methods := [.POST] }] ++ l.drop 3) ∧
    (create_auth_routes issuer doc (some { enabled := b }) (some { enabled := true }) =
      (create_auth_routes issuer doc (some { enabled := b })
          (some { enabled := false })).map fun l =>
        l ++ [{ path := REVOCATION_PATH, methods := [.POST] }]) ∧
    build_metadata issuer doc { enabled := true } { enabled := b } =
      { build_metadata issuer doc { enabled := false } { enabled := b } with
          registration_endpoint := some (modify_url_path issuer fun path =>
            rstripChar '/' path ++ lstripChar '/' REGISTRATION_PATH) } ∧
    (build_metadata issuer doc { enabled := false }
        { enabled := b }).registration_endpoint = none ∧
    build_metadata issuer doc { enabled := b } { enabled := true } =
      { build_metadata issuer doc { enabled := b } { enabled := false } with
          revocation_endpoint := some (modify_url_path issuer fun path =>
            rstripChar '/' path ++ lstripChar '/' REVOCATION_PATH),
          revocation_endpoint_auth_methods_supported :=
            some ["client_secret_post"] } ∧
    (build_metadata issuer doc { enabled := b }
        { enabled := false }).revocation_endpoint = none ∧
    (build_metadata issuer doc { enabled := b }
        { enabled := false }).revocation_endpoint_auth_methods_supported =
      none := by
  refine ⟨?_, ?_, ?_, ?_, ?_, ?_, ?_⟩
  · cases hv : validate_issuer_url issuer <;> cases b <;>
      simp only [create_auth_routes, hv] <;> rfl
  · cases hv : validate_issuer_url issuer <;> cases b <;>
      simp only [create_auth_routes, hv] <;> rfl
  · cases b <;> rfl
  · cases b <;> rfl
  · cases b <;> rfl
  · cases b <;> rfl
  · cases b <;> rfl
